import Mathlib

/-!
Verification of the multisig-x402 SDK against its design specification.

The development embeds the TypeScript sources shallowly:
* strings are lists of characters (List Char); String is used only for the
  status labels of the polling state machine and the identity store, where no
  character-level reasoning is needed;
* JavaScript exceptions become Except results; functions that only log or
  emit console warnings are modelled as pure functions whose warning output,
  when a claim mentions it, is returned explicitly;
* the remote canister, the file system and the HTTP transport are the
  environment: they appear as explicit parameters (a poll sequence of request
  records, a name-indexed map of stored identity files).

Sections follow the repository: hex utilities (src/utils/hex.ts), validation
(src/utils/validation.ts), network/token tables (src/types.ts), the canister
client (src/canisters/x402.ts), the SDK facade createSignRequest /
getSignature / callPaidService (src/client.ts), and the identity manager
(src/identity/manager.ts).
-/

/-! ## Character helpers (JavaScript primitives used by hex.ts) -/

/-- ASCII fragment of String.prototype.toLowerCase, applied per character:
codes 65..90 (A..Z) shift by 32 to a..z, everything else is unchanged.
Non-ASCII letters are not mapped, which never changes a validation outcome
because their lowercase forms are not hex digits either. -/
def jsToLower (c : Char) : Char :=
  if 65 ≤ c.toNat ∧ c.toNat ≤ 90 then Char.ofNat (c.toNat + 32) else c

/-- Test for the regex class [0-9a-f]: a lowercase hexadecimal digit. -/
def isHexLowerDigit (c : Char) : Bool :=
  (48 ≤ c.toNat && c.toNat ≤ 57) || (97 ≤ c.toNat && c.toNat ≤ 102)

/-- Test for the regex class [0-9a-fA-F]: a hexadecimal digit of either case. -/
def isHexAnyDigit (c : Char) : Bool :=
  isHexLowerDigit c || (65 ≤ c.toNat && c.toNat ≤ 70)

/-- Test for the regex class [0-9]: a decimal digit. -/
def isDecDigit (c : Char) : Bool :=
  48 ≤ c.toNat && c.toNat ≤ 57

/-- Numeric value of one hexadecimal digit (either case). -/
def hexDigitVal (c : Char) : Nat :=
  if c.toNat ≤ 57 then c.toNat - 48
  else if c.toNat ≤ 70 then c.toNat - 55
  else c.toNat - 87

/-- Numeric value of a big-endian hexadecimal digit string. -/
def hexVal (s : List Char) : Nat :=
  s.foldl (fun a c => 16 * a + hexDigitVal c) 0

/-- Numeric value of a big-endian decimal digit string. -/
def decVal (s : List Char) : Nat :=
  s.foldl (fun a c => 10 * a + (c.toNat - 48)) 0

/-- Numeric value of a big-endian binary digit string. -/
def binVal (s : List Char) : Nat :=
  s.foldl (fun a c => 2 * a + (c.toNat - 48)) 0

/-- Numeric value of a big-endian octal digit string. -/
def octVal (s : List Char) : Nat :=
  s.foldl (fun a c => 8 * a + (c.toNat - 48)) 0

/-- Removal of one leading "0x", as hex.ts does after lowercasing:
hexString.startsWith('0x') followed by hexString.slice(2). -/
def strip0x (s : List Char) : List Char :=
  match s with
  | '0' :: 'x' :: rest => rest
  | other => other

/-! ## Hex/Uint256 canonicalizer (src/utils/hex.ts) -/

/-- Embedding of padHex(hexString, targetLength): lowercase, strip an optional
0x, reject a non-hex remainder or one longer than targetLength, left-pad with
zeros to exactly targetLength digits and re-add the 0x. The thrown Error
objects become Except.error with the leading text of the message. -/
def padHex (hexString : List Char) (targetLength : Nat) : Except String (List Char) :=
  let hex := strip0x (hexString.map jsToLower)
  if !(hex.all isHexLowerDigit) then
    .error "Invalid hex string"
  else if targetLength < hex.length then
    .error "Hex string too long"
  else
    .ok ('0' :: 'x' :: (List.replicate (targetLength - hex.length) '0' ++ hex))

/-- Embedding of normalizeUint256(hexString) = padHex(hexString, 64). -/
def normalizeUint256 (hexString : List Char) : Except String (List Char) :=
  padHex hexString 64

/-- Embedding of isValidHex(hexString): lowercase, strip an optional 0x, and
test the regex [0-9a-f]+ (at least one digit, all lowercase hex). -/
def isValidHex (hexString : List Char) : Bool :=
  let hex := strip0x (hexString.map jsToLower)
  !hex.isEmpty && hex.all isHexLowerDigit

deriving instance DecidableEq for Except

/-- Discriminator for Except values used to state that a call throws. -/
def isErr {α : Type} : Except String α → Bool
  | .error _ => true
  | .ok _ => false

/-- Value of an Except known to be ok; the empty string list otherwise. -/
def okValue : Except String (List Char) → List Char
  | .ok v => v
  | .error _ => []

example : normalizeUint256 "0x3e8".toList =
    .ok ("0x00000000000000000000000000000000000000000000000000000000000003e8".toList) := by decide
example : isValidHex "0xGGG".toList = false := by decide
example : isValidHex "3e8".toList = true := by decide

/-! ## The BigInt(string) primitive (ECMAScript StringToBigInt)

validation.ts converts its inputs with the BigInt constructor, so the
fragment of StringToBigInt reachable from it is embedded here: the empty
string is 0, a 0x/0X (0b/0B, 0o/0O) prefix selects hexadecimal (binary,
octal) digits with no sign allowed, and otherwise an optionally signed
decimal number is parsed; anything else throws a SyntaxError (none).
Leading/trailing whitespace is not modelled: every call site has already
required the characters to be hex digits or a sign, so no reachable input
contains whitespace. -/

/-- StringToBigInt as used by validation.ts; none models the thrown
SyntaxError. -/
def jsBigInt (s : List Char) : Option Int :=
  if s = [] then some 0
  else if s.take 2 = ['0', 'x'] ∨ s.take 2 = ['0', 'X'] then
    let rest := s.drop 2
    if rest ≠ [] ∧ rest.all isHexAnyDigit then some (hexVal rest) else none
  else if s.take 2 = ['0', 'b'] ∨ s.take 2 = ['0', 'B'] then
    let rest := s.drop 2
    if rest ≠ [] ∧ rest.all (fun c => c = '0' ∨ c = '1') then some (binVal rest) else none
  else if s.take 2 = ['0', 'o'] ∨ s.take 2 = ['0', 'O'] then
    let rest := s.drop 2
    if rest ≠ [] ∧ rest.all (fun c => 48 ≤ c.toNat && c.toNat ≤ 55) then some (octVal rest) else none
  else
    match s with
    | '-' :: rest => if rest ≠ [] ∧ rest.all isDecDigit then some (-(decVal rest : Int)) else none
    | '+' :: rest => if rest ≠ [] ∧ rest.all isDecDigit then some (decVal rest) else none
    | _ => if s.all isDecDigit then some (decVal s) else none

example : jsBigInt "0x3e8".toList = some 1000 := by decide
example : jsBigInt "3e8".toList = none := by decide
example : jsBigInt "123".toList = some 123 := by decide
example : jsBigInt "-0x1".toList = none := by decide
example : jsBigInt "-12".toList = some (-12) := by decide
example : jsBigInt "0b10".toList = some 2 := by decide

/-! ## Parameter validator (src/utils/validation.ts) -/

/-- Embedding of isValidEthereumAddress(address): the regex
0x[a-fA-F0-9]\x7b40\x7d anchored at both ends. -/
def isValidEthereumAddress (address : List Char) : Bool :=
  match address with
  | '0' :: 'x' :: rest => rest.length = 40 && rest.all isHexAnyDigit
  | _ => false

/-- Embedding of validateEthereumAddress(address, fieldName): throws when the
address regex fails. -/
def validateEthereumAddress (address : List Char) : Except String Unit :=
  if !(isValidEthereumAddress address) then .error "Invalid address" else .ok ()

/-- Embedding of validateHexValue(hexValue, fieldName, allowNegative): strip a
leading minus sign for the format test, require isValidHex on the remainder,
reject a negative when not allowed, then convert the original string with
BigInt (a thrown conversion is the out-of-range error) and reject a negative
value when not allowed. -/
def validateHexValue (hexValue : List Char) (allowNegative : Bool) : Except String Unit :=
  let isNegative := hexValue.take 1 = ['-']
  let valueToCheck := if isNegative then hexValue.drop 1 else hexValue
  if !(isValidHex valueToCheck) then
    .error "Invalid format"
  else if isNegative ∧ !allowNegative then
    .error "cannot be negative"
  else
    match jsBigInt hexValue with
    | none => .error "out of valid range"
    | some value =>
        if !allowNegative ∧ value < 0 then .error "cannot be negative"
        else .ok ()

/-- Embedding of validateTimestamps(validAfter, validBefore). now is the
current Unix time in seconds (BigInt(Math.floor(Date.now() / 1000))), used
only by the far-future soft warning. On success the console.warn calls that
fired are returned as a list of warning labels; the only hard error after the
two field validations is beforeValue less than or equal to afterValue. -/
def validateTimestamps (now : Int) (validAfter validBefore : List Char) :
    Except String (List String) :=
  match validateHexValue validAfter false with
  | .error e => .error e
  | .ok _ =>
  match validateHexValue validBefore false with
  | .error e => .error e
  | .ok _ =>
  match jsBigInt validAfter, jsBigInt validBefore with
  | some afterValue, some beforeValue =>
      if beforeValue ≤ afterValue then
        .error "Invalid time range"
      else
        ((if 0 < afterValue ∧ now + 86400 < afterValue then ["validAfter far in future"] else []) ++
         (if beforeValue - afterValue < 300 then ["validity window short"] else []) : List String) |> .ok
  | _, _ => .error "out of valid range"

/-- Embedding of validateNonce(nonce): the hex-value check; a zero nonce only
produces a console warning, returned here as the warning list. -/
def validateNonce (nonce : List Char) : Except String (List String) :=
  match validateHexValue nonce false with
  | .error e => .error e
  | .ok _ =>
  match jsBigInt nonce with
  | some nonceValue => .ok (if nonceValue = 0 then ["nonce is zero"] else [])
  | none => .error "out of valid range"

/-- Embedding of validateVaultId(vaultId): a vault id must be a positive
integer. -/
def validateVaultId (vaultId : Int) : Except String Unit :=
  if vaultId ≤ 0 then .error "Invalid Vault ID" else .ok ()

/-- Embedding of validateContractAddress(contractAddress, fieldName): the
address check; the zero address only produces a console warning, returned
here as the warning list. -/
def validateContractAddress (contractAddress : List Char) : Except String (List String) :=
  match validateEthereumAddress contractAddress with
  | .error e => .error e
  | .ok _ =>
      .ok (if contractAddress.map jsToLower = "0x0000000000000000000000000000000000000000".toList
           then ["zero address"] else [])

/-- Embedding of validateDomainChainId(domainChainId): the literal "solana"
bypasses hex validation; otherwise the hex-value check plus a hard zero
check. -/
def validateDomainChainId (domainChainId : List Char) : Except String Unit :=
  if domainChainId = "solana".toList then .ok ()
  else
    match validateHexValue domainChainId false with
    | .error e => .error e
    | .ok _ =>
    match jsBigInt domainChainId with
    | some chainIdValue => if chainIdValue = 0 then .error "Chain ID cannot be 0" else .ok ()
    | none => .error "out of valid range"

/-- JavaScript whitespace as far as String.prototype.trim is used here (the
inputs are ASCII). -/
def jsWhitespace (c : Char) : Bool :=
  c = ' ' ∨ c = '\t' ∨ c = '\n' ∨ c = '\r' ∨ c.toNat = 11 ∨ c.toNat = 12

/-- String.prototype.trim on a character list. -/
def jsTrim (s : List Char) : List Char :=
  ((s.dropWhile jsWhitespace).reverse.dropWhile jsWhitespace).reverse

/-- Embedding of validateDomainParams(domainName, domainVersion): both must be
non-empty after trimming; a non-numeric version only produces a console
warning, returned here as the warning list. -/
def validateDomainParams (domainName domainVersion : List Char) : Except String (List String) :=
  if domainName = [] ∨ jsTrim domainName = [] then .error "domainName cannot be empty"
  else if domainVersion = [] ∨ jsTrim domainVersion = [] then .error "domainVersion cannot be empty"
  else .ok (if !(domainVersion ≠ [] && domainVersion.all isDecDigit) then ["version not numeric"] else [])

/-- Parameters of a signature request as the SDK and the validator see them
(SignRequestParams of src/client.ts, SignRequestParamsForValidation of
src/utils/validation.ts: the same ten fields). -/
structure SignRequestParams where
  vaultId : Int
  toAddress : List Char
  value : List Char
  validAfter : List Char
  validBefore : List Char
  nonce : List Char
  verifyingContract : List Char
  domainChainId : List Char
  domainName : List Char
  domainVersion : List Char
deriving DecidableEq

/-- Embedding of validateSignRequestParams(params): the batch entry point,
running every check in the source's fixed order and failing on the first hard
error; warnings are discarded as they never alter control flow. -/
def validateSignRequestParams (now : Int) (params : SignRequestParams) : Except String Unit :=
  match validateVaultId params.vaultId with
  | .error e => .error e
  | .ok _ =>
  match validateEthereumAddress params.toAddress with
  | .error e => .error e
  | .ok _ =>
  match validateHexValue params.value false with
  | .error e => .error e
  | .ok _ =>
  match validateTimestamps now params.validAfter params.validBefore with
  | .error e => .error e
  | .ok _ =>
  match validateNonce params.nonce with
  | .error e => .error e
  | .ok _ =>
  match validateContractAddress params.verifyingContract with
  | .error e => .error e
  | .ok _ =>
  match validateDomainChainId params.domainChainId with
  | .error e => .error e
  | .ok _ =>
  match validateDomainParams params.domainName params.domainVersion with
  | .error e => .error e
  | .ok _ => .ok ()

example : isErr (validateTimestamps 0 "0x67890abc".toList "0x0".toList) = true := by decide
example : isErr (validateTimestamps 0 "0x0".toList "0x67890abc".toList) = false := by decide
example : isValidEthereumAddress "0x742d35Cc6634C0532925a3b844Bc9e7595f0bEb1".toList = true := by decide

/-! ## Network and token tables (src/types.ts) -/

/-- SupportedNetwork of src/types.ts. -/
inductive SupportedNetwork
  | base
  | baseSepolia
  | solana
deriving DecidableEq

/-- TokenConfig of src/types.ts; symbol is kept as its literal string. -/
structure TokenConfig where
  name : List Char
  symbol : List Char
  address : List Char
  decimals : Nat
deriving DecidableEq

/-- Embedding of the SUPPORTED_TOKENS table of src/types.ts. -/
def SUPPORTED_TOKENS : SupportedNetwork → List TokenConfig
  | .base =>
      [{ name := "Ether".toList, symbol := "ETH".toList,
         address := "0x0000000000000000000000000000000000000000".toList, decimals := 18 },
       { name := "USD Coin".toList, symbol := "USDC".toList,
         address := "0x833589fCD6eDb6E08f4c7C32D4f71b54bdA02913".toList, decimals := 6 }]
  | .baseSepolia =>
      [{ name := "Ether".toList, symbol := "ETH".toList,
         address := "0x0000000000000000000000000000000000000000".toList, decimals := 18 },
       { name := "USD Coin".toList, symbol := "USDC".toList,
         address := "0x036CbD53842c5426634e7929541eC2318f3dCF7e".toList, decimals := 6 }]
  | .solana =>
      [{ name := "USD Coin".toList, symbol := "USDC".toList,
         address := "EPjFWdd5AufqSSqeM2qN1xzybapC8G4wEGGkZwyTDt1v".toList, decimals := 6 },
       { name := "SOL".toList, symbol := "SOL".toList,
         address := "0x0000000000000000000000000000000000000000".toList, decimals := 9 }]

/-- Embedding of the CHAIN_ID_TO_NETWORK record of src/types.ts; none models
the undefined result of indexing with an unknown key. -/
def CHAIN_ID_TO_NETWORK (chainId : List Char) : Option SupportedNetwork :=
  if chainId = "0x2105".toList then some .base
  else if chainId = "0x14a34".toList then some .baseSepolia
  else if chainId = "solana".toList then some .solana
  else none

/-- Embedding of isSupportedToken(network, contractAddress): case-insensitive
membership of the address in the network's token table. -/
def isSupportedToken (network : SupportedNetwork) (contractAddress : List Char) : Bool :=
  let normalizedAddress := contractAddress.map jsToLower
  (SUPPORTED_TOKENS network).any fun token => token.address.map jsToLower == normalizedAddress

/-! ## Canister client and SDK request creation (src/canisters/x402.ts and
src/client.ts)

createRequestOnly normalizes the four uint256 fields and then performs the
create_request update call; createSignRequest checks the chain id against
CHAIN_ID_TO_NETWORK and the verifying contract against the token whitelist
and then delegates to createRequestOnly. Everything up to the update call is
pure, so the embedding returns either the local throw or the exact
X402TransferWithAuthorizationAction payload with which the remote call is
performed; the remote call itself and its result belong to the environment. -/

/-- X402TransferWithAuthorizationAction as built by createRequestOnly. -/
structure X402Action where
  vault_id : Int
  toField : List Char
  value : List Char
  valid_after : List Char
  valid_before : List Char
  nonce : List Char
  verifying_contract : List Char
  domain_chain_id : List Char
  domain_name : List Char
  domain_version : List Char
deriving DecidableEq

/-- Outcome of the request-creation path up to the remote boundary: either a
throw that happens before any network call, or the create_request call being
performed with the given action payload. -/
inductive CreateOutcome
  | localError (msg : String)
  | remoteCall (action : X402Action)
deriving DecidableEq

/-- Discriminator: the path threw before any network call. -/
def isLocalError : CreateOutcome → Bool
  | .localError _ => true
  | .remoteCall _ => false

/-- Discriminator: the path reached the create_request remote call. -/
def isRemoteCall : CreateOutcome → Bool
  | .localError _ => false
  | .remoteCall _ => true

/-- Embedding of X402Client.createRequestOnly(params) up to the remote
boundary: normalize value, validAfter, validBefore and nonce with
normalizeUint256 (each throw is local), build the action and perform
create_request with it. -/
def createRequestOnly (params : SignRequestParams) : CreateOutcome :=
  match normalizeUint256 params.value with
  | .error e => .localError e
  | .ok normalizedValue =>
  match normalizeUint256 params.validAfter with
  | .error e => .localError e
  | .ok normalizedValidAfter =>
  match normalizeUint256 params.validBefore with
  | .error e => .localError e
  | .ok normalizedValidBefore =>
  match normalizeUint256 params.nonce with
  | .error e => .localError e
  | .ok normalizedNonce =>
  .remoteCall
    { vault_id := params.vaultId
      toField := params.toAddress
      value := normalizedValue
      valid_after := normalizedValidAfter
      valid_before := normalizedValidBefore
      nonce := normalizedNonce
      verifying_contract := params.verifyingContract
      domain_chain_id := params.domainChainId
      domain_name := params.domainName
      domain_version := params.domainVersion }

/-- Embedding of X402MultiSig.createSignRequest(params) up to the remote
boundary: step 1 resolves the network from domainChainId (throwing on an
unsupported chain id), step 2 checks the token whitelist (throwing on an
unsupported contract), step 3 delegates to createRequestOnly. Note that
validateSignRequestParams is not called on this path. -/
def createSignRequest (params : SignRequestParams) : CreateOutcome :=
  match CHAIN_ID_TO_NETWORK params.domainChainId with
  | none => .localError "Unsupported network Chain ID"
  | some network =>
      if !(isSupportedToken network params.verifyingContract) then
        .localError "Unsupported token contract address"
      else
        createRequestOnly params

/-! ## Signature query and the polling loop (src/client.ts)

getSignature performs one get_request query and shapes the returned record
into a SignatureResult; callPaidService step 4 performs one immediate
getSignature and then the bounded polling loop. The environment is the
sequence of records the canister returns: records i is the record observed by
the i-th getSignature call of the run (i = 0 is the immediate post-submit
fetch). The loop is translated with its counter attempts exactly as in the
source; the extra fuel argument is only the structural-recursion bound and
callPaidServicePoll instantiates it with maxAttempts, which the loop guard
never exceeds. -/

/-- RequestStatus of src/types.ts. -/
inductive RequestStatus
  | Pending
  | Approved
  | Rejected
  | Executed
  | Expired
deriving DecidableEq

/-- Object.keys(record.status)[0]: the status variant as the string key the
canister record carries. -/
def statusString : RequestStatus → String
  | .Pending => "Pending"
  | .Approved => "Approved"
  | .Rejected => "Rejected"
  | .Executed => "Executed"
  | .Expired => "Expired"

/-- RequestRecord fields of src/types.ts that getSignature reads:
execution_result and executed_at are Candid Opt values, decoded as zero- or
one-element lists; created_at and executed_at are nanosecond timestamps. The
fields id, request, proposer and approvals are never read by getSignature and
are omitted. -/
structure RequestRecord where
  status : RequestStatus
  execution_result : List String
  created_at : Nat
  executed_at : List Nat
deriving DecidableEq

/-- SignatureResult of src/client.ts as built by getSignature: createdAt and
executedAt are milliseconds (nanoseconds divided by 1,000,000). The requestId
field is omitted: it is the constant argument threaded through unchanged. -/
structure SignatureResult where
  status : String
  signature : Option String
  createdAt : Nat
  executedAt : Option Nat
deriving DecidableEq

/-- Embedding of the record-shaping part of X402MultiSig.getSignature: the
fetch itself is the environment, record is what it returned. The signature is
attached only when the status key is Executed and execution_result is
non-empty; executedAt only when executed_at is non-empty and its value is
truthy (a zero bigint is falsy in JavaScript). -/
def getSignatureResult (record : RequestRecord) : SignatureResult :=
  if statusString record.status = "Executed" ∧ 0 < record.execution_result.length then
    { status := statusString record.status,
      signature := record.execution_result.head?,
      createdAt := record.created_at / 1000000,
      executedAt :=
        match record.executed_at with
        | [] => none
        | t :: _ => if t ≠ 0 then some (t / 1000000) else none }
  else
    { status := statusString record.status, signature := none,
      createdAt := record.created_at / 1000000, executedAt := none }

/-- Exit of the while loop of callPaidService step 4: normal carries the last
result and the final value of attempts (the loop guard failed, or break on
Executed); rejectedAt and expiredAt carry the attempts value at which the
corresponding error was thrown out of the loop. -/
inductive LoopExit
  | normal (result : SignatureResult) (attempts : Nat)
  | rejectedAt (attempts : Nat)
  | expiredAt (attempts : Nat)
deriving DecidableEq

/-- Embedding of the while loop of callPaidService step 4. One iteration:
increment attempts, sleep, fetch (records attempts is the record the fetch
returns), then break on Executed, throw on Rejected, throw on Expired, and
otherwise continue. fuel bounds the recursion; with fuel at least
maxAttempts - attempts the inner fuel-exhaustion branch is unreachable. -/
def pollWhile (records : Nat → RequestRecord) (maxAttempts : Nat)
    (attempts : Nat) (result : SignatureResult) (fuel : Nat) : LoopExit :=
  if attempts < maxAttempts then
    match fuel with
    | 0 => .normal result attempts
    | fuel' + 1 =>
        if (getSignatureResult (records (attempts + 1))).status = "Executed" then
          .normal (getSignatureResult (records (attempts + 1))) (attempts + 1)
        else if (getSignatureResult (records (attempts + 1))).status = "Rejected" then
          .rejectedAt (attempts + 1)
        else if (getSignatureResult (records (attempts + 1))).status = "Expired" then
          .expiredAt (attempts + 1)
        else pollWhile records maxAttempts (attempts + 1)
          (getSignatureResult (records (attempts + 1))) fuel'
  else .normal result attempts

/-- Outcome of callPaidService steps 4 and the signature presence check that
follows the loop: ok carries the SignatureResult whose signature is then used
to build and send the payment header (steps 5 to 7, outside this model);
rejected, expired and timeout are the three thrown errors of the loop;
missingSignature is the thrown error of the check result.signature, which in
JavaScript also fires on an empty-string signature. -/
inductive PollOutcome
  | ok (result : SignatureResult)
  | rejected
  | expired
  | timeout
  | missingSignature
deriving DecidableEq

/-- Run summary of the polling phase: its outcome, how many getSignature
fetches were performed in total (the immediate one included) and how many
sleeps of the configured interval were performed. -/
structure PollRun where
  outcome : PollOutcome
  fetches : Nat
  sleeps : Nat
deriving DecidableEq

/-- Truthiness of result.signature in JavaScript: undefined and the empty
string are falsy. -/
def signatureFalsy : Option String → Bool
  | none => true
  | some s => s = ""

/-- The check following the loop: if (!result.signature) throw, otherwise the
result is used for the payment header. -/
def finishWithResult (result : SignatureResult) (fetches sleeps : Nat) : PollRun :=
  if signatureFalsy result.signature then ⟨.missingSignature, fetches, sleeps⟩
  else ⟨.ok result, fetches, sleeps⟩

/-- Embedding of X402MultiSig.callPaidService step 4 (poll and wait for
signature completion) plus the signature presence check: the immediate
getSignature fetch, the polling loop when its status is not Executed, and the
timeout throw when the loop ends with attempts at or above maxAttempts.
records i is the record the i-th fetch observes; maxAttempts is the resolved
polling option (the source default is 120). -/
def callPaidServicePoll (records : Nat → RequestRecord) (maxAttempts : Nat) : PollRun :=
  if (getSignatureResult (records 0)).status ≠ "Executed" then
    match pollWhile records maxAttempts 0 (getSignatureResult (records 0)) maxAttempts with
    | .rejectedAt attempts => ⟨.rejected, 1 + attempts, attempts⟩
    | .expiredAt attempts => ⟨.expired, 1 + attempts, attempts⟩
    | .normal result' attempts =>
        if maxAttempts ≤ attempts then ⟨.timeout, 1 + attempts, attempts⟩
        else finishWithResult result' (1 + attempts) attempts
  else finishWithResult (getSignatureResult (records 0)) 1 0

/-! ## Identity store (src/identity/manager.ts)

saveIdentity and loadIdentity act on one JSON file per identity name. The
file system is modelled as a map from names to parsed file contents; the
Ed25519 key pair is opaque (its toJSON form is the keyData pair of strings,
and deriving the principal from it is the environment's concern). existing is
the parsed content of a pre-existing file, or none when the file is absent or
unreadable (the source falls back to the current time in that case). The two
Date.now() reads of one save are the two time parameters. -/

/-- IdentityStorageData of src/identity/manager.ts. The username and
displayName fields are optional in the stored JSON; none models an absent
field. -/
structure IdentityStorageData where
  keyData : String × String
  principal : String
  username : Option String
  displayName : Option String
  createdAt : String
  updatedAt : String
deriving DecidableEq

/-- Truthiness of an optional string field in JavaScript: undefined and the
empty string are falsy. -/
def fieldFalsy : Option String → Bool
  | none => true
  | some s => s = ""

/-- Embedding of the body of IdentityManager.saveIdentity: when a readable
file exists its createdAt is kept, and a falsy username (displayName)
argument is replaced by the existing stored value when that value is truthy;
the record written has the fresh keyData, principal and updatedAt. -/
def saveIdentityData (existing : Option IdentityStorageData) (keyData : String × String)
    (principal : String) (username0 displayName0 : Option String)
    (now updatedNow : String) : IdentityStorageData :=
  let createdAt := match existing with
    | none => now
    | some d => d.createdAt
  let username := match existing with
    | none => username0
    | some d => if fieldFalsy username0 && !(fieldFalsy d.username) then d.username else username0
  let displayName := match existing with
    | none => displayName0
    | some d =>
        if fieldFalsy displayName0 && !(fieldFalsy d.displayName) then d.displayName
        else displayName0
  { keyData := keyData, principal := principal, username := username,
    displayName := displayName, createdAt := createdAt, updatedAt := updatedNow }

/-- The identity directory as a map from identity names to parsed stored
files. -/
def IdentityStore : Type := String → Option IdentityStorageData

/-- Embedding of IdentityManager.saveIdentity at the store level: write the
record saveIdentityData builds from the pre-existing file for that name. -/
def saveIdentity (store : IdentityStore) (name : String) (keyData : String × String)
    (principal : String) (username0 displayName0 : Option String)
    (now updatedNow : String) : IdentityStore :=
  fun n =>
    if n = name then
      some (saveIdentityData (store name) keyData principal username0 displayName0 now updatedNow)
    else store n

/-- What IdentityManager.loadIdentity yields to its caller: the key pair
reconstructed from keyData, the stored principal, and the stored
username/displayName (placed in the caches and reported). A principal
mismatch is only a console warning and does not alter the returned value. -/
structure LoadedIdentity where
  keyData : String × String
  principal : String
  username : Option String
  displayName : Option String
deriving DecidableEq

/-- Embedding of IdentityManager.loadIdentity: throw when no file exists for
the name, otherwise parse it and return the reconstructed identity with the
stored metadata. -/
def loadIdentity (store : IdentityStore) (name : String) : Except String LoadedIdentity :=
  match store name with
  | none => .error "Identity does not exist"
  | some d =>
      .ok { keyData := d.keyData, principal := d.principal,
            username := d.username, displayName := d.displayName }


/-! ## Concrete inputs used by witnesses and counterexamples -/

/-- Signature-request parameters whose recipient address 0x123 fails the
batch validator's address check while every other field is valid, the chain
id is supported and the verifying contract is whitelisted (Base Sepolia
USDC). -/
def badToParams : SignRequestParams :=
  { vaultId := 1
    toAddress := "0x123".toList
    value := "0x3e8".toList
    validAfter := "0x0".toList
    validBefore := "0x67890abc".toList
    nonce := "0x1".toList
    verifyingContract := "0x036CbD53842c5426634e7929541eC2318f3dCF7e".toList
    domainChainId := "0x14a34".toList
    domainName := "USDC".toList
    domainVersion := "2".toList }

/-- Signature-request parameters with a negative transfer amount and every
other field valid and supported. -/
def negValueParams : SignRequestParams :=
  { badToParams with
    toAddress := "0x0987654321098765432109876543210987654321".toList
    value := "-0x1".toList }

/-- Signature-request parameters whose chain id 0x1 is outside the supported
set. -/
def unsupportedChainParams : SignRequestParams :=
  { badToParams with
    toAddress := "0x0987654321098765432109876543210987654321".toList
    domainChainId := "0x1".toList }

/-- A pending request record as observed by one poll. -/
def pendingRecord : RequestRecord :=
  { status := .Pending, execution_result := [], created_at := 5000000, executed_at := [] }

/-- A rejected request record as observed by one poll. -/
def rejectedRecord : RequestRecord :=
  { status := .Rejected, execution_result := [], created_at := 5000000, executed_at := [] }

/-- An executed request record carrying its signature. -/
def executedRecord : RequestRecord :=
  { status := .Executed, execution_result := ["0xabc123"], created_at := 5000000,
    executed_at := [7000000] }

/-- Poll sequence of end-to-end scenario D: Pending, Pending, then Rejected
forever. -/
def pprSeq : Nat → RequestRecord :=
  fun i => if i < 2 then pendingRecord else rejectedRecord

/-- Poll sequence of end-to-end scenario C: Pending, Pending, then Executed
forever. -/
def ppeSeq : Nat → RequestRecord :=
  fun i => if i < 2 then pendingRecord else executedRecord

/-! ## Supporting lemmas on characters and digit strings -/

/-- Char.ofNat round-trips through toNat on the basic plane. -/
theorem toNat_ofNat_of_lt {n : Nat} (h : n < 55296) : (Char.ofNat n).toNat = n := by
  simp [Char.ofNat, Nat.isValidChar, h, Char.ofNatAux, Char.toNat, UInt32.toNat]

/-- Lowercase hex digits are fixed points of jsToLower. -/
theorem jsToLower_fixes_hexLower {c : Char} (h : isHexLowerDigit c = true) : jsToLower c = c := by
  simp only [isHexLowerDigit, Bool.or_eq_true, Bool.and_eq_true, decide_eq_true_eq] at h
  unfold jsToLower
  rw [if_neg]
  omega

/-- jsToLower is idempotent. -/
theorem jsToLower_idem (c : Char) : jsToLower (jsToLower c) = jsToLower c := by
  unfold jsToLower
  by_cases h : 65 ≤ c.toNat ∧ c.toNat ≤ 90
  · rw [if_pos h, toNat_ofNat_of_lt (by omega), if_neg (by omega)]
  · rw [if_neg h, if_neg h]

/-- Mapping a function that fixes every element of a list is the identity. -/
theorem map_fixes_of_forall {f : Char → Char} {l : List Char} (h : ∀ c ∈ l, f c = c) :
    l.map f = l := by
  induction l with
  | nil => rfl
  | cons a t ih =>
      simp only [List.map_cons, List.cons.injEq]
      exact ⟨h a (by simp), ih (fun c hc => h c (by simp [hc]))⟩

/-- Left-padding with zero digits does not change the value of a hex digit
string. -/
theorem hexVal_replicate_zero (k : Nat) (l : List Char) :
    hexVal (List.replicate k '0' ++ l) = hexVal l := by
  unfold hexVal
  rw [List.foldl_append]
  congr 1
  induction k with
  | zero => rfl
  | succ n ih =>
      rw [List.replicate_succ, List.foldl_cons]
      have h0 : (16 * 0 + hexDigitVal '0') = 0 := by decide
      rw [h0]
      exact ih

/-! ## Claim C5: normalizeUint256 canonicalizes and is idempotent -/

/-- C5: for every hex string with at most 64 hex digits (an optional 0x
prefix and either letter case allowed), normalizeUint256 succeeds and returns
0x followed by exactly 64 lowercase hex digits, the numeric value of those 64
digits equals the numeric value of the input's digits, and re-normalizing the
output returns the output itself (idempotence). -/
theorem normalizeUint256_canonical (h : List Char)
    (hhex : (strip0x (h.map jsToLower)).all isHexLowerDigit = true)
    (hlen : (strip0x (h.map jsToLower)).length ≤ 64) :
    isErr (normalizeUint256 h) = false ∧
    okValue (normalizeUint256 h) =
      '0' :: 'x' :: (List.replicate (64 - (strip0x (h.map jsToLower)).length) '0'
        ++ strip0x (h.map jsToLower)) ∧
    (okValue (normalizeUint256 h)).length = 66 ∧
    ((okValue (normalizeUint256 h)).drop 2).all isHexLowerDigit = true ∧
    hexVal ((okValue (normalizeUint256 h)).drop 2) = hexVal (strip0x (h.map jsToLower)) ∧
    normalizeUint256 (okValue (normalizeUint256 h)) = normalizeUint256 h := by
  have hnotlong : ¬ (64 < (strip0x (h.map jsToLower)).length) := Nat.not_lt.mpr hlen
  have heval : normalizeUint256 h =
      .ok ('0' :: 'x' :: (List.replicate (64 - (strip0x (h.map jsToLower)).length) '0'
        ++ strip0x (h.map jsToLower))) := by
    unfold normalizeUint256 padHex
    simp [hhex, hnotlong]
  set s := strip0x (h.map jsToLower) with hs
  set padded := List.replicate (64 - s.length) '0' ++ s with hpadded
  have hplen : padded.length = 64 := by
    rw [hpadded, List.length_append, List.length_replicate]
    omega
  have hrall : (List.replicate (64 - s.length) '0').all isHexLowerDigit = true := by
    rw [List.all_eq_true]
    intro x hx
    rcases (List.mem_replicate.mp hx) with ⟨_, rfl⟩
    decide
  have hpall : padded.all isHexLowerDigit = true := by
    rw [hpadded, List.all_append, hrall, hhex]
    rfl
  have hmap : ('0' :: 'x' :: padded).map jsToLower = '0' :: 'x' :: padded := by
    refine map_fixes_of_forall ?_
    intro c hc
    rcases hc with _ | ⟨_, hc⟩
    · decide
    · rcases hc with _ | ⟨_, hc⟩
      · decide
      · exact jsToLower_fixes_hexLower (List.all_eq_true.mp hpall c hc)
  have hidem : normalizeUint256 ('0' :: 'x' :: padded) = Except.ok ('0' :: 'x' :: padded) := by
    unfold normalizeUint256 padHex
    rw [hmap]
    show (if (!(padded.all isHexLowerDigit)) = true then Except.error "Invalid hex string"
      else if 64 < padded.length then Except.error "Hex string too long"
      else Except.ok ('0' :: 'x' :: (List.replicate (64 - padded.length) '0' ++ padded))) =
      Except.ok ('0' :: 'x' :: padded)
    rw [hpall, hplen]
    simp
  refine ⟨?_, ?_, ?_, ?_, ?_, ?_⟩
  · rw [heval]
    rfl
  · rw [heval]
    rfl
  · rw [heval]
    show ('0' :: 'x' :: padded).length = 66
    simp [hplen]
  · rw [heval]
    exact hpall
  · rw [heval]
    show hexVal padded = hexVal s
    rw [hpadded]
    exact hexVal_replicate_zero _ _
  · rw [heval]
    show normalizeUint256 ('0' :: 'x' :: padded) = Except.ok ('0' :: 'x' :: padded)
    exact hidem

/-- C5 witness: normalizeUint256 at the concrete input 0x3e8 (end-to-end
scenario A of the specification). -/
theorem normalizeUint256_canonical_witness :
    isErr (normalizeUint256 "0x3e8".toList) = false ∧
    okValue (normalizeUint256 "0x3e8".toList) =
      '0' :: 'x' :: (List.replicate (64 - (strip0x ("0x3e8".toList.map jsToLower)).length) '0'
        ++ strip0x ("0x3e8".toList.map jsToLower)) ∧
    (okValue (normalizeUint256 "0x3e8".toList)).length = 66 ∧
    ((okValue (normalizeUint256 "0x3e8".toList)).drop 2).all isHexLowerDigit = true ∧
    hexVal ((okValue (normalizeUint256 "0x3e8".toList)).drop 2) =
      hexVal (strip0x ("0x3e8".toList.map jsToLower)) ∧
    normalizeUint256 (okValue (normalizeUint256 "0x3e8".toList)) =
      normalizeUint256 "0x3e8".toList :=
  normalizeUint256_canonical "0x3e8".toList (by decide) (by decide)

/-! ## Claim C6: normalizeUint256 rejects non-hex characters and overlong
inputs -/

/-- C6: normalizeUint256 throws for every input that, after stripping an
optional 0x prefix, contains a character that is not a hexadecimal digit
(case-insensitively: the source lowercases before testing), and for every
input whose hex digit count exceeds 64. -/
theorem normalizeUint256_rejects (h : List Char)
    (hbad : (∃ c ∈ strip0x (h.map jsToLower), isHexLowerDigit c = false) ∨
            64 < (strip0x (h.map jsToLower)).length) :
    isErr (normalizeUint256 h) = true := by
  unfold normalizeUint256 padHex
  by_cases hall : (strip0x (h.map jsToLower)).all isHexLowerDigit = true
  · have hlen : 64 < (strip0x (h.map jsToLower)).length := by
      rcases hbad with ⟨c, hc, hcv⟩ | hlen
      · have := List.all_eq_true.mp hall c hc
        rw [hcv] at this
        exact absurd this (by simp)
      · exact hlen
    simp [hall, hlen, isErr]
  · have hall' : (strip0x (h.map jsToLower)).all isHexLowerDigit = false :=
      Bool.eq_false_iff.mpr hall
    simp [hall', isErr]

/-- C6 witness: a non-hex character (0xZZ) and an overlong input (65 hex
digits) are both rejected. -/
theorem normalizeUint256_rejects_witness :
    isErr (normalizeUint256 "0xZZ".toList) = true ∧
    isErr (normalizeUint256
      "10000000000000000000000000000000000000000000000000000000000000000".toList) = true :=
  ⟨normalizeUint256_rejects "0xZZ".toList (Or.inl (by decide)),
   normalizeUint256_rejects
     "10000000000000000000000000000000000000000000000000000000000000000".toList
     (Or.inr (by decide))⟩

/-! ## Claim C10: the canonicalizer accepts the empty inputs that the
validator's hex check rejects -/

/-- C10: normalizeUint256 does not reject the empty inputs: both the empty
string and the bare prefix 0x normalize to 0x followed by 64 zero digits,
while isValidHex is false on both inputs (its regex requires at least one
digit). -/
theorem normalizeUint256_accepts_empty :
    normalizeUint256 "".toList =
      .ok ("0x0000000000000000000000000000000000000000000000000000000000000000".toList) ∧
    normalizeUint256 "0x".toList =
      .ok ("0x0000000000000000000000000000000000000000000000000000000000000000".toList) ∧
    isValidHex "".toList = false ∧
    isValidHex "0x".toList = false := by
  refine ⟨by decide, by decide, by decide, by decide⟩

/-! ## Claim C7: validateTimestamps throws exactly when validBefore is at most
validAfter -/

/-- C7: for every pair of inputs that individually pass the hex-value check
(whose BigInt values are va and vb), validateTimestamps throws exactly when
vb is at most va; the short-window and far-future checks only contribute
console warnings and never make the call throw, whatever the current time. -/
theorem validateTimestamps_error_iff (now : Int) (a b : List Char) (va vb : Int)
    (ha : validateHexValue a false = .ok ()) (hb : validateHexValue b false = .ok ())
    (hva : jsBigInt a = some va) (hvb : jsBigInt b = some vb) :
    isErr (validateTimestamps now a b) = true ↔ vb ≤ va := by
  unfold validateTimestamps
  rw [ha, hb, hva, hvb]
  by_cases hle : vb ≤ va
  · simp [hle, isErr]
  · simp [hle, isErr]

/-- C7 witness: end-to-end scenario B, validateTimestamps(0x67890abc, 0x0)
throws because 0 is at most 0x67890abc; obtained by applying the iff at the
concrete pair. -/
theorem validateTimestamps_error_iff_witness :
    isErr (validateTimestamps 1700000000 "0x67890abc".toList "0x0".toList) = true :=
  (validateTimestamps_error_iff 1700000000 "0x67890abc".toList "0x0".toList 1737034428 0
    (by decide) (by decide) (by decide) (by decide)).mpr (by decide)

/-! ## Claim C4: does the request-creation path run the batch validator
before the remote call? -/

/-- C4 counterexample: badToParams fails the batch validator (its recipient
address is not 0x plus 40 hex digits), yet createSignRequest reaches the
create_request remote call with it: the batch validator is not invoked on
the request-creation path, so these malformed parameters do reach the remote
service. -/
theorem createSignRequest_skips_validator :
    isErr (validateSignRequestParams 1700000000 badToParams) = true ∧
    isRemoteCall (createSignRequest badToParams) = true := by
  refine ⟨by decide, by decide⟩

/-- C4 amended: the local throws that do precede the remote call on the
request-creation path are those of the hex canonicalizer: if any of value,
validAfter, validBefore or nonce fails normalizeUint256 (a non-hex character,
which covers every negative value, or more than 64 hex digits), then
createSignRequest throws before performing the create_request remote call. -/
theorem createSignRequest_hexFieldError_local (params : SignRequestParams)
    (hbad : isErr (normalizeUint256 params.value) = true ∨
            isErr (normalizeUint256 params.validAfter) = true ∨
            isErr (normalizeUint256 params.validBefore) = true ∨
            isErr (normalizeUint256 params.nonce) = true) :
    isLocalError (createSignRequest params) = true := by
  unfold createSignRequest createRequestOnly
  repeat' split
  all_goals try rfl
  all_goals rcases hbad with hx | hx | hx | hx <;> simp_all [isErr]

/-- C4 witness: a negative transfer amount is thrown on locally, before any
remote call. -/
theorem createSignRequest_hexFieldError_local_witness :
    isLocalError (createSignRequest negValueParams) = true :=
  createSignRequest_hexFieldError_local negValueParams (Or.inl (by decide))

/-! ## Claim C9: unsupported chain ids and non-whitelisted contracts throw
before any remote call -/

/-- C9: createSignRequest throws before performing any remote call whenever
domainChainId is outside the supported set, and whenever the verifying
contract differs (even case-insensitively: mismatch of the lowercased forms
is all the hypothesis requires) from every whitelisted token address of the
resolved network. -/
theorem createSignRequest_unsupported_local (params : SignRequestParams)
    (hbad : params.domainChainId ∉ ["0x2105".toList, "0x14a34".toList, "solana".toList] ∨
            ∃ network, CHAIN_ID_TO_NETWORK params.domainChainId = some network ∧
              ∀ token ∈ SUPPORTED_TOKENS network,
                token.address.map jsToLower ≠ params.verifyingContract.map jsToLower) :
    isLocalError (createSignRequest params) = true := by
  unfold createSignRequest
  rcases hbad with hout | ⟨network, hnet, htok⟩
  · have hnone : CHAIN_ID_TO_NETWORK params.domainChainId = none := by
      simp only [List.mem_cons, List.not_mem_nil, or_false, not_or] at hout
      unfold CHAIN_ID_TO_NETWORK
      rw [if_neg hout.1, if_neg hout.2.1, if_neg hout.2.2]
    rw [hnone]
    rfl
  · rw [hnet]
    have hfalse : isSupportedToken network params.verifyingContract = false := by
      simp only [isSupportedToken, List.any_eq_false]
      intro token htk hbeq
      exact htok token htk (eq_of_beq hbeq)
    show isLocalError
      (if (!isSupportedToken network params.verifyingContract) = true then
        CreateOutcome.localError "Unsupported token contract address"
      else createRequestOnly params) = true
    rw [hfalse]
    rfl

/-- C9 witness: chain id 0x1 throws locally before any remote call. -/
theorem createSignRequest_unsupported_local_witness :
    isLocalError (createSignRequest unsupportedChainParams) = true :=
  createSignRequest_unsupported_local unsupportedChainParams (Or.inl (by decide))

/-! ## Supporting lemmas on the polling loop -/

/-- The status field of a shaped SignatureResult is the record's status key. -/
theorem getSignatureResult_status (record : RequestRecord) :
    (getSignatureResult record).status = statusString record.status := by
  unfold getSignatureResult
  by_cases hc : statusString record.status = "Executed" ∧ 0 < record.execution_result.length
  · rw [if_pos hc]
  · rw [if_neg hc]

/-- A Pending or Approved record is none of the three terminal status keys. -/
theorem nonterminal_status_keys {record : RequestRecord}
    (h : record.status = .Pending ∨ record.status = .Approved) :
    (getSignatureResult record).status ≠ "Executed" ∧
    (getSignatureResult record).status ≠ "Rejected" ∧
    (getSignatureResult record).status ≠ "Expired" := by
  rw [getSignatureResult_status]
  rcases h with hp | hp <;> rw [hp] <;> exact ⟨by decide, by decide, by decide⟩

/-- One loop iteration whose fetched record is non-terminal advances the
counter and continues. -/
theorem pollWhile_step_nonterminal (records : Nat → RequestRecord) (maxAttempts attempts : Nat)
    (result : SignatureResult) (fuel : Nat) (hlt : attempts < maxAttempts)
    (hne : (getSignatureResult (records (attempts + 1))).status ≠ "Executed")
    (hnr : (getSignatureResult (records (attempts + 1))).status ≠ "Rejected")
    (hnx : (getSignatureResult (records (attempts + 1))).status ≠ "Expired") :
    pollWhile records maxAttempts attempts result (fuel + 1) =
      pollWhile records maxAttempts (attempts + 1)
        (getSignatureResult (records (attempts + 1))) fuel := by
  conv_lhs => unfold pollWhile
  rw [if_pos hlt]
  show (if (getSignatureResult (records (attempts + 1))).status = "Executed" then _
    else if (getSignatureResult (records (attempts + 1))).status = "Rejected" then _
    else if (getSignatureResult (records (attempts + 1))).status = "Expired" then _
    else pollWhile records maxAttempts (attempts + 1)
      (getSignatureResult (records (attempts + 1))) fuel) = _
  rw [if_neg hne, if_neg hnr, if_neg hnx]

/-- A loop entered with its counter at or past maxAttempts exits at once. -/
theorem pollWhile_guard_exit (records : Nat → RequestRecord) (maxAttempts attempts : Nat)
    (result : SignatureResult) (fuel : Nat) (hge : ¬ attempts < maxAttempts) :
    pollWhile records maxAttempts attempts result fuel = .normal result attempts := by
  unfold pollWhile
  rw [if_neg hge]

/-- While every observed record stays non-terminal, the loop exits through
its guard with attempts equal to maxAttempts. -/
theorem pollWhile_all_nonterminal (records : Nat → RequestRecord) (maxAttempts : Nat)
    (hnt : ∀ i, (records i).status = .Pending ∨ (records i).status = .Approved) :
    ∀ fuel attempts result, attempts ≤ maxAttempts → maxAttempts ≤ attempts + fuel →
      ∃ r, pollWhile records maxAttempts attempts result fuel = .normal r maxAttempts := by
  intro fuel
  induction fuel with
  | zero =>
      intro attempts result h1 h2
      have heq : attempts = maxAttempts := by omega
      rw [pollWhile_guard_exit records maxAttempts attempts result 0 (by omega), heq]
      exact ⟨result, rfl⟩
  | succ fuel ih =>
      intro attempts result h1 h2
      by_cases hlt : attempts < maxAttempts
      · obtain ⟨hne, hnr, hnx⟩ := nonterminal_status_keys (hnt (attempts + 1))
        rw [pollWhile_step_nonterminal records maxAttempts attempts result fuel hlt hne hnr hnx]
        exact ih (attempts + 1) _ (by omega) (by omega)
      · have heq : attempts = maxAttempts := by omega
        rw [pollWhile_guard_exit records maxAttempts attempts result (fuel + 1) (by omega), heq]
        exact ⟨result, rfl⟩

/-- When the records fetched before index k are non-terminal and the record
at k (inside the loop range) is Rejected or Expired, the loop throws the
matching error at attempts = k. -/
theorem pollWhile_terminal_at (records : Nat → RequestRecord) (maxAttempts k : Nat)
    (hk : (records k).status = .Rejected ∨ (records k).status = .Expired)
    (hpre : ∀ i, 0 < i → i < k →
      (records i).status = .Pending ∨ (records i).status = .Approved) :
    ∀ fuel attempts result, attempts < k → k ≤ maxAttempts → maxAttempts ≤ attempts + fuel →
      pollWhile records maxAttempts attempts result fuel =
        (match (records k).status with
         | RequestStatus.Expired => LoopExit.expiredAt k
         | _ => LoopExit.rejectedAt k) := by
  intro fuel
  induction fuel with
  | zero =>
      intro attempts result h1 h2 h3
      omega
  | succ fuel ih =>
      intro attempts result h1 h2 h3
      by_cases heq : attempts + 1 = k
      · conv_lhs => unfold pollWhile
        rw [if_pos (by omega : attempts < maxAttempts)]
        show (if (getSignatureResult (records (attempts + 1))).status = "Executed" then _
          else if (getSignatureResult (records (attempts + 1))).status = "Rejected" then _
          else if (getSignatureResult (records (attempts + 1))).status = "Expired" then _
          else pollWhile records maxAttempts (attempts + 1)
            (getSignatureResult (records (attempts + 1))) fuel) = _
        rcases hk with hx | hx
        · have hst : (getSignatureResult (records (attempts + 1))).status = "Rejected" := by
            rw [getSignatureResult_status, heq, hx]
            decide
          rw [hst, if_neg (by decide), if_pos rfl, heq, hx]
        · have hst : (getSignatureResult (records (attempts + 1))).status = "Expired" := by
            rw [getSignatureResult_status, heq, hx]
            decide
          rw [hst, if_neg (by decide), if_neg (by decide), if_pos rfl, heq, hx]
      · obtain ⟨hne, hnr, hnx⟩ :=
          nonterminal_status_keys (hpre (attempts + 1) (by omega) (by omega))
        rw [pollWhile_step_nonterminal records maxAttempts attempts result fuel
          (by omega) hne hnr hnx]
        exact ih (attempts + 1) _ (by omega) h2 (by omega)

/-! ## Claim C1: fetch count of a run that never observes a terminal status -/

/-- C1 counterexample: with maxAttempts = 1 and a poll sequence that is
always Pending, the run raises the timeout error only after 2 status
observations (the immediate post-submit fetch plus 1 poll), so it performs
more than maxAttempts observations, contradicting the claimed bound. -/
theorem callPaidService_timeout_counterexample :
    callPaidServicePoll (fun _ => pendingRecord) 1 = ⟨.timeout, 2, 1⟩ := by decide

/-- C1 amended: for every poll sequence in which no terminal status is ever
observed, the run raises the timeout error after exactly maxAttempts + 1
non-terminal status observations (1 immediate post-submit fetch plus
maxAttempts in-loop fetches, with maxAttempts sleeps), and never performs
more than maxAttempts + 1 observations. -/
theorem callPaidService_timeout_after_all_polls (records : Nat → RequestRecord)
    (maxAttempts : Nat)
    (hnt : ∀ i, (records i).status = .Pending ∨ (records i).status = .Approved) :
    callPaidServicePoll records maxAttempts = ⟨.timeout, maxAttempts + 1, maxAttempts⟩ := by
  obtain ⟨hne, _, _⟩ := nonterminal_status_keys (hnt 0)
  unfold callPaidServicePoll
  rw [if_pos hne]
  obtain ⟨r, hr⟩ := pollWhile_all_nonterminal records maxAttempts hnt maxAttempts 0
    (getSignatureResult (records 0)) (by omega) (by omega)
  rw [hr]
  show (if maxAttempts ≤ maxAttempts then (⟨.timeout, 1 + maxAttempts, maxAttempts⟩ : PollRun)
    else finishWithResult r (1 + maxAttempts) maxAttempts) =
    ⟨.timeout, maxAttempts + 1, maxAttempts⟩
  rw [if_pos (le_refl maxAttempts), Nat.add_comm 1 maxAttempts]

/-- C1 witness: the amended bound at maxAttempts = 2 with an all-Pending
sequence: timeout after 3 fetches and 2 sleeps. -/
theorem callPaidService_timeout_after_all_polls_witness :
    callPaidServicePoll (fun _ => pendingRecord) 2 = ⟨.timeout, 3, 2⟩ :=
  callPaidService_timeout_after_all_polls (fun _ => pendingRecord) 2 (fun _ => Or.inl rfl)

/-! ## Claim C2: behaviour on the first observation of Rejected -/

/-- C2 counterexample: when the immediate post-submit fetch already observes
Rejected, the run does not fail at that first observation: the loop is still
entered (its guard only checks for Executed), one more sleep and one more
fetch happen, and only the second observation of Rejected throws — 2 fetches
and 1 sleep in total, not 1 fetch and 0 sleeps. -/
theorem callPaidService_rejected_immediate_counterexample :
    callPaidServicePoll (fun _ => rejectedRecord) 5 = ⟨.rejected, 2, 1⟩ := by decide

/-- C2 amended: when the first observation of Rejected (or Expired) happens
inside the polling loop (at fetch index k with 1 at most k at most
maxAttempts, all earlier observations non-terminal), the run fails with the
matching rejection or expiry error at that observation, after exactly k + 1
fetches and k sleeps, with no further fetch or sleep; if instead the
immediate post-submit fetch shows Rejected, one extra sleep and fetch occur
first (see the counterexample). In particular the sequence Pending, Pending,
Rejected fails after exactly 3 fetches. -/
theorem callPaidService_rejected_in_loop (records : Nat → RequestRecord)
    (maxAttempts k : Nat) (hk1 : 1 ≤ k) (hk2 : k ≤ maxAttempts)
    (hpre : ∀ i, i < k → (records i).status = .Pending ∨ (records i).status = .Approved)
    (hterm : (records k).status = .Rejected ∨ (records k).status = .Expired) :
    callPaidServicePoll records maxAttempts =
      ⟨(match (records k).status with
        | RequestStatus.Expired => PollOutcome.expired
        | _ => PollOutcome.rejected), k + 1, k⟩ := by
  obtain ⟨hne, _, _⟩ := nonterminal_status_keys (hpre 0 (by omega))
  unfold callPaidServicePoll
  rw [if_pos hne]
  rw [pollWhile_terminal_at records maxAttempts k hterm (fun i _ h2 => hpre i h2)
    maxAttempts 0 (getSignatureResult (records 0)) (by omega) hk2 (by omega)]
  rcases hterm with hx | hx
  · rw [hx]
    show (⟨.rejected, 1 + k, k⟩ : PollRun) = ⟨.rejected, k + 1, k⟩
    rw [Nat.add_comm 1 k]
  · rw [hx]
    show (⟨.expired, 1 + k, k⟩ : PollRun) = ⟨.expired, k + 1, k⟩
    rw [Nat.add_comm 1 k]

/-- C2 witness: end-to-end scenario D, the sequence Pending, Pending,
Rejected with the default ceiling 120 fails with the rejection error after
exactly 3 fetches and 2 sleeps, far below maxAttempts. -/
theorem callPaidService_rejected_in_loop_witness :
    callPaidServicePoll pprSeq 120 =
      ⟨(match (pprSeq 2).status with
        | RequestStatus.Expired => PollOutcome.expired
        | _ => PollOutcome.rejected), 3, 2⟩ :=
  callPaidService_rejected_in_loop pprSeq 120 2 (by decide) (by decide)
    (by decide) (Or.inl (by decide))

/-! ## Claim C3: success on observing Executed at or before the ceiling -/

/-- C3: the sequence Pending, Pending, Executed (signature present) succeeds
after exactly 3 fetches under the default ceiling 120, returning the
Executed SignatureResult with its signature and converted timestamps; but
the same sequence under maxAttempts = 2, where Executed is observed exactly
at the final attempt, makes the code throw the timeout error instead of
returning the already-fetched signature: the post-loop check attempts at or
above maxAttempts does not exclude the break-on-success path. -/
theorem callPaidService_executed_lastAttempt_divergence :
    callPaidServicePoll ppeSeq 120 =
      ⟨.ok { status := "Executed", signature := some "0xabc123",
             createdAt := 5, executedAt := some 7 }, 3, 2⟩ ∧
    callPaidServicePoll ppeSeq 2 = ⟨.timeout, 3, 2⟩ :=
  ⟨by decide, by decide⟩

/-! ## Claim C8: sticky identity metadata and the save/load round trip -/

/-- C8 counterexample: a previously saved identity whose stored username is
the empty string (the first save supplied an empty username, which the
source stores verbatim) is not preserved by a second save that supplies no
username: the stored empty string is falsy in JavaScript, so the re-save
erases it to an absent field — the written file changes in a field other
than keyData, principal and updatedAt. -/
theorem saveIdentity_emptyUsername_counterexample :
    saveIdentity (fun _ => none) "default" ("pub1", "priv1") "principal1"
        (some "") (some "Bob") "t1" "t2" "default" =
      some { keyData := ("pub1", "priv1"), principal := "principal1", username := some "",
             displayName := some "Bob", createdAt := "t1", updatedAt := "t2" } ∧
    saveIdentity
        (saveIdentity (fun _ => none) "default" ("pub1", "priv1") "principal1"
          (some "") (some "Bob") "t1" "t2")
        "default" ("pub1", "priv1") "principal1" none none "t3" "t4" "default" =
      some { keyData := ("pub1", "priv1"), principal := "principal1", username := none,
             displayName := some "Bob", createdAt := "t1", updatedAt := "t4" } :=
  ⟨by decide, by decide⟩

/-- C8 amended: for a fresh identity name, a first save with an explicit
username and displayName that are not the empty string (an absent value is
also allowed), followed by a second save that supplies neither, preserves
the stored username, displayName and the original createdAt unchanged, while
only keyData, principal and updatedAt take the second save's values; and
each save followed by a load round-trips the stored key data, principal,
username and displayName exactly. A stored empty-string username or
displayName is the one exception (see the counterexample). -/
theorem saveIdentity_sticky_roundtrip (store : IdentityStore) (name : String)
    (kd1 kd2 : String × String) (p1 p2 : String) (u1 dn1 : Option String)
    (tA tB tC tD : String)
    (hfresh : store name = none) (hu : u1 ≠ some "") (hd : dn1 ≠ some "") :
    saveIdentity store name kd1 p1 u1 dn1 tA tB name =
      some { keyData := kd1, principal := p1, username := u1, displayName := dn1,
             createdAt := tA, updatedAt := tB } ∧
    saveIdentity (saveIdentity store name kd1 p1 u1 dn1 tA tB) name kd2 p2 none none tC tD
        name =
      some { keyData := kd2, principal := p2, username := u1, displayName := dn1,
             createdAt := tA, updatedAt := tD } ∧
    loadIdentity (saveIdentity store name kd1 p1 u1 dn1 tA tB) name =
      .ok { keyData := kd1, principal := p1, username := u1, displayName := dn1 } ∧
    loadIdentity (saveIdentity (saveIdentity store name kd1 p1 u1 dn1 tA tB) name
        kd2 p2 none none tC tD) name =
      .ok { keyData := kd2, principal := p2, username := u1, displayName := dn1 } := by
  have hkeep : ∀ (u : Option String), u ≠ some "" →
      (if (fieldFalsy none && !(fieldFalsy u)) = true then u else none) = u := by
    intro u hu0
    rcases u with _ | str
    · simp [fieldFalsy]
    · have hs : str ≠ "" := fun hh => hu0 (by rw [hh])
      simp [fieldFalsy, hs]
  have h1 : saveIdentity store name kd1 p1 u1 dn1 tA tB name =
      some { keyData := kd1, principal := p1, username := u1, displayName := dn1,
             createdAt := tA, updatedAt := tB } := by
    show (if name = name
      then some (saveIdentityData (store name) kd1 p1 u1 dn1 tA tB)
      else store name) = _
    rw [if_pos rfl, hfresh]
    rfl
  have h2 : saveIdentity (saveIdentity store name kd1 p1 u1 dn1 tA tB) name
      kd2 p2 none none tC tD name =
      some { keyData := kd2, principal := p2, username := u1, displayName := dn1,
             createdAt := tA, updatedAt := tD } := by
    show (if name = name
      then some (saveIdentityData (saveIdentity store name kd1 p1 u1 dn1 tA tB name)
        kd2 p2 none none tC tD)
      else saveIdentity store name kd1 p1 u1 dn1 tA tB name) = _
    rw [if_pos rfl, h1]
    show some
      ({ keyData := kd2, principal := p2,
         username := (if (fieldFalsy none && !(fieldFalsy u1)) = true then u1 else none),
         displayName := (if (fieldFalsy none && !(fieldFalsy dn1)) = true then dn1 else none),
         createdAt := tA, updatedAt := tD } : IdentityStorageData) = _
    rw [hkeep u1 hu, hkeep dn1 hd]
  refine ⟨h1, h2, ?_, ?_⟩
  · unfold loadIdentity
    rw [h1]
  · unfold loadIdentity
    rw [h2]

/-- C8 witness: the sticky round trip at a concrete identity: a first save
with username alice and displayName Alice, then a metadata-free re-save with
fresh key material; username, displayName and createdAt survive, and both
loads round-trip the stored fields. -/
theorem saveIdentity_sticky_roundtrip_witness :
    saveIdentity (fun _ => none) "default" ("pub1", "priv1") "principalA"
        (some "alice") (some "Alice") "t1" "t2" "default" =
      some { keyData := ("pub1", "priv1"), principal := "principalA",
             username := some "alice", displayName := some "Alice",
             createdAt := "t1", updatedAt := "t2" } ∧
    saveIdentity
        (saveIdentity (fun _ => none) "default" ("pub1", "priv1") "principalA"
          (some "alice") (some "Alice") "t1" "t2")
        "default" ("pub2", "priv2") "principalB" none none "t3" "t4" "default" =
      some { keyData := ("pub2", "priv2"), principal := "principalB",
             username := some "alice", displayName := some "Alice",
             createdAt := "t1", updatedAt := "t4" } ∧
    loadIdentity
        (saveIdentity (fun _ => none) "default" ("pub1", "priv1") "principalA"
          (some "alice") (some "Alice") "t1" "t2") "default" =
      .ok { keyData := ("pub1", "priv1"), principal := "principalA",
            username := some "alice", displayName := some "Alice" } ∧
    loadIdentity
        (saveIdentity
          (saveIdentity (fun _ => none) "default" ("pub1", "priv1") "principalA"
            (some "alice") (some "Alice") "t1" "t2")
          "default" ("pub2", "priv2") "principalB" none none "t3" "t4") "default" =
      .ok { keyData := ("pub2", "priv2"), principal := "principalB",
            username := some "alice", displayName := some "Alice" } :=
  saveIdentity_sticky_roundtrip (fun _ => none) "default" ("pub1", "priv1") ("pub2", "priv2")
    "principalA" "principalB" (some "alice") (some "Alice") "t1" "t2" "t3" "t4"
    rfl (by decide) (by decide)
